import Mathlib

/-!
# Verification of the Imagimob streaming-protocol firmware core

A shallow embedding of the acquisition pipeline of the firmware
(`source/main.c`, `source/audio.c`, `source/dps.c`, `source/radar.c`) and
proofs of the specified properties.

Modelling conventions:
* `cy_rslt_t` statuses are `Nat`, with `CY_RSLT_SUCCESS = 0`.
* The hardware-abstraction calls (clock setup, PDM block init, sensor reads,
  timer setup) are black boxes per the spec; each call's returned status and
  any data it produces are supplied by an *environment* record, so a theorem
  quantifying over the environment covers every combination of outcomes.
* The audio channel's visible state (the two sample buffers, the two buffer
  references, the ready flag) is an explicit record; ISR and foreground code
  are state transformers that additionally emit a trace of the externally
  visible actions they perform, in program order, so that claims about the
  order of actions ("the last action is …") can be stated.
* `int16_t` sample values are carried as `Int`, `uint16_t` values as `Nat`;
  the float pressure/temperature payloads are carried as opaque `Int`-coded
  values since the code only moves them and never computes on them.
-/

/-- `CY_RSLT_SUCCESS` is the zero status word. -/
def CY_RSLT_SUCCESS : Nat := 0

/-! ## Audio channel state (`source/audio.c`) -/

/-- The two statically allocated capture buffers `audio_buffer0` and
`audio_buffer1`. The mutable pointers `active_rx_buffer` / `full_rx_buffer`
can only ever refer to one of these two. -/
inductive AudioBuf where
  | buffer0
  | buffer1
deriving DecidableEq, Repr

/-- Visible state of the audio channel: the contents of the two buffers,
which buffer each of the two references points at, and the ready flag
`pdm_pcm_flag` (a global in `main.c`, written by the audio ISR and by the
foreground). -/
structure AudioState where
  buf0 : List Int
  buf1 : List Int
  active_rx_buffer : AudioBuf
  full_rx_buffer : AudioBuf
  pdm_pcm_flag : Bool
deriving DecidableEq, Repr

/-- Contents of the buffer the `full_rx_buffer` reference points at. -/
def fullContents (s : AudioState) : List Int :=
  match s.full_rx_buffer with
  | AudioBuf.buffer0 => s.buf0
  | AudioBuf.buffer1 => s.buf1

/-- Replace the contents of the buffer the `active_rx_buffer` reference
points at (the effect of a completed DMA capture). -/
def writeActive (s : AudioState) (data : List Int) : AudioState :=
  match s.active_rx_buffer with
  | AudioBuf.buffer0 => { s with buf0 := data }
  | AudioBuf.buffer1 => { s with buf1 := data }

/-- Externally visible actions of the audio ISR and of `pdm_init`, recorded
in program order. `readAsync b n` is `cyhal_pdm_pcm_read_async(&pdm_pcm, b, n)`. -/
inductive AudioAction where
  | setFlag (b : Bool)
  | swapBuffers
  | readAsync (target : AudioBuf) (len : Nat)
deriving DecidableEq, Repr

/-! ## `pdm_clock_init` and `pdm_init` (`source/audio.c`) -/

/-- Statuses returned by the fallible HAL calls made during PDM
initialisation, one field per call site in `pdm_clock_init` / `pdm_init`.
(`cyhal_pdm_pcm_register_callback` and `cyhal_pdm_pcm_enable_event` return
no status and touch none of the modelled state.) -/
structure PdmEnv where
  clock_reserve_pll : Nat
  clock_set_frequency_pll : Nat
  clock_set_enabled_pll : Nat
  clock_reserve_hf : Nat
  clock_set_source_hf : Nat
  clock_set_enabled_hf : Nat
  pdm_pcm_init_r : Nat
  pdm_pcm_start_r : Nat
deriving DecidableEq, Repr

/-- `pdm_clock_init`: six fallible clock-setup calls, returning at the first
non-success status, `CY_RSLT_SUCCESS` otherwise. -/
def pdm_clock_init (env : PdmEnv) : Nat :=
  if env.clock_reserve_pll ≠ CY_RSLT_SUCCESS then env.clock_reserve_pll
  else if env.clock_set_frequency_pll ≠ CY_RSLT_SUCCESS then env.clock_set_frequency_pll
  else if env.clock_set_enabled_pll ≠ CY_RSLT_SUCCESS then env.clock_set_enabled_pll
  else if env.clock_reserve_hf ≠ CY_RSLT_SUCCESS then env.clock_reserve_hf
  else if env.clock_set_source_hf ≠ CY_RSLT_SUCCESS then env.clock_set_source_hf
  else if env.clock_set_enabled_hf ≠ CY_RSLT_SUCCESS then env.clock_set_enabled_hf
  else CY_RSLT_SUCCESS

/-- Result of `pdm_init`: the returned status, the audio-channel state after
the call, and the trace of visible actions performed. -/
structure PdmInitResult where
  result : Nat
  state : AudioState
  actions : List AudioAction
deriving DecidableEq, Repr

/-- `pdm_init` (`source/audio.c:117`): clock init, PDM/PCM block init,
callback registration, start — each fallible step returning early on
failure — and only after every step has succeeded: point
`active_rx_buffer` at `audio_buffer0` and `full_rx_buffer` at
`audio_buffer1`, clear `pdm_pcm_flag`, and arm the first asynchronous read
of `FRAME_SIZE` (`fs`) samples into the active buffer. -/
def pdm_init (fs : Nat) (env : PdmEnv) (s : AudioState) : PdmInitResult :=
  let result := pdm_clock_init env
  if result ≠ CY_RSLT_SUCCESS then ⟨result, s, []⟩
  else
    let result := env.pdm_pcm_init_r
    if result ≠ CY_RSLT_SUCCESS then ⟨result, s, []⟩
    else
      let result := env.pdm_pcm_start_r
      if result ≠ CY_RSLT_SUCCESS then ⟨result, s, []⟩
      else
        let s1 : AudioState :=
          { s with active_rx_buffer := AudioBuf.buffer0
                   full_rx_buffer := AudioBuf.buffer1
                   pdm_pcm_flag := false }
        ⟨CY_RSLT_SUCCESS, s1,
          [AudioAction.readAsync s1.active_rx_buffer fs]⟩

/-! ## The audio ISR (`pdm_pcm_event_handler`, `source/audio.c:230`) -/

/-- `pdm_pcm_event_handler`: if `pdm_pcm_flag` is false, set it and swap the
`active_rx_buffer` / `full_rx_buffer` references; in every case, finish by
re-arming an asynchronous read of `FRAME_SIZE` (`fs`) samples into the
(possibly new) active buffer. Returns the new state and the action trace
in program order. -/
def pdm_pcm_event_handler (fs : Nat) (s : AudioState) : AudioState × List AudioAction :=
  if s.pdm_pcm_flag = false then
    let s1 := { s with pdm_pcm_flag := true }
    let temp := s1.active_rx_buffer
    let s2 := { s1 with active_rx_buffer := s1.full_rx_buffer
                        full_rx_buffer := temp }
    (s2, [AudioAction.setFlag true, AudioAction.swapBuffers,
          AudioAction.readAsync s2.active_rx_buffer fs])
  else
    (s, [AudioAction.readAsync s.active_rx_buffer fs])

/-! ## The foreground copy (`pdm_preprocessing_feed`, `source/audio.c:259`) -/

/-- The copy loop `for (i = 0; i < n; i++) dst[i] = f(src[i]);` shared by
`pdm_preprocessing_feed` and `radar_get_data`, as a left fold over the
iteration indices. `d0` is the out-of-range default (never used when the
source holds at least `n` samples). -/
def copyLoop (f : α → β) (d0 : α) (n : Nat) (src : List α) (dst : List β) : List β :=
  (List.range n).foldl (fun d i => d.set i (f (src.getD i d0))) dst

/-- `pdm_preprocessing_feed`: copies `FRAME_SIZE` (`fs`) samples out of the
buffer `full_rx_buffer` points at into the caller's output buffer. -/
def pdm_preprocessing_feed (fs : Nat) (s : AudioState) (out : List Int) : List Int :=
  copyLoop id 0 fs (fullContents s) out

/-! ## Steps of the running audio channel

After a successful `pdm_init` the audio channel evolves by: the
async-complete ISR firing; the DMA engine depositing a completed frame in
the active buffer; or the foreground servicing the channel, which (per the
audio branch of `main`'s loop) clears `pdm_pcm_flag` and then copies out of
the full buffer — the copy does not change the channel's state. -/
inductive AudioStep (fs : Nat) : AudioState → AudioState → Prop where
  | isr (s : AudioState) : AudioStep fs s (pdm_pcm_event_handler fs s).1
  | dma_fill (s : AudioState) (data : List Int) (h : data.length = fs) :
      AudioStep fs s (writeActive s data)
  | service (s : AudioState) (h : s.pdm_pcm_flag = true) :
      AudioStep fs s { s with pdm_pcm_flag := false }

/-- Reachability of audio-channel states through any number of steps. -/
def AudioReachable (fs : Nat) : AudioState → AudioState → Prop :=
  Relation.ReflTransGen (AudioStep fs)

/-! ## The foreground (`source/main.c`) -/

/-- The channels `main`'s loop can service, in declaration order:
the IMU (when `IM_ENABLE_IMU` is set) and then the audio channel. -/
inductive Channel where
  | imu
  | audio
deriving DecidableEq, Repr

/-- Statuses returned by the sensor initialisation calls made by `main`. -/
structure MainEnv where
  pdm_init_r : Nat
  imu_init_r : Nat
deriving DecidableEq, Repr

/-- The sensor-initialisation portion of `main` (`source/main.c:108`):
`result = pdm_init();` then, only when the IMU is enabled,
`result = imu_init();` — over-writing the previous status — and finally
`if (CY_RSLT_SUCCESS != result) NVIC_SystemReset();`. Returns `true` iff
the system reset is invoked (so `false` means `main` enters the loop). -/
def main_boot (imuEnabled : Bool) (env : MainEnv) : Bool :=
  let result := env.pdm_init_r
  let result := if imuEnabled then env.imu_init_r else result
  decide (result ≠ CY_RSLT_SUCCESS)

/-- Externally visible actions of one pass of `main`'s foreground loop, in
program order. `protocolSend c` is `protocol_send` with channel `c`'s
transport identifier (`PROTOCOL_IMU_CHANNEL` / `PROTOCOL_AUDIO_CHANNEL`);
`getData c` is the frame copy (`imu_get_data` / `pdm_preprocessing_feed`). -/
inductive MainAction where
  | protocolRepl
  | clearFlag (c : Channel)
  | getData (c : Channel)
  | protocolSend (c : Channel)
deriving DecidableEq, Repr

/-- The ready flags visible to `main`'s loop. -/
structure MainFlags where
  imu_flag : Bool
  pdm_pcm_flag : Bool
deriving DecidableEq, Repr

/-- One pass of the unbounded loop of `main` (`source/main.c:127`):
`protocol_repl()`; then, when the IMU is enabled and `imu_flag` is set:
clear `imu_flag`, `imu_get_data`, `protocol_send(PROTOCOL_IMU_CHANNEL,…)`;
then, when `pdm_pcm_flag` is set: clear `pdm_pcm_flag`,
`pdm_preprocessing_feed`, `protocol_send(PROTOCOL_AUDIO_CHANNEL,…)`.
Returns the flags after the pass and the trace of actions in program
order. -/
def main_loop_body (imuEnabled : Bool) (s : MainFlags) : MainFlags × List MainAction :=
  let acts : List MainAction := [MainAction.protocolRepl]
  let (s, acts) :=
    if imuEnabled then
      if s.imu_flag = true then
        ({ s with imu_flag := false },
         acts ++ [MainAction.clearFlag Channel.imu, MainAction.getData Channel.imu,
                  MainAction.protocolSend Channel.imu])
      else (s, acts)
    else (s, acts)
  let (s, acts) :=
    if s.pdm_pcm_flag = true then
      ({ s with pdm_pcm_flag := false },
       acts ++ [MainAction.clearFlag Channel.audio, MainAction.getData Channel.audio,
                MainAction.protocolSend Channel.audio])
    else (s, acts)
  (s, acts)

/-- `precedesB a b t` holds when some occurrence of `a` comes strictly
before some occurrence of `b` in the trace `t`. -/
def precedesB (a b : MainAction) : List MainAction → Bool
  | [] => false
  | x :: xs => (x == a && xs.contains b) || precedesB a b xs

/-! ## The pressure channel (`source/dps.c`) -/

/-- `DPS_SCAN_RATE` (`source/dps.c:51`). -/
def DPS_SCAN_RATE : Nat := 50

/-- `DPS_TIMER_FREQUENCY` (`source/dps.c:52`). -/
def DPS_TIMER_FREQUENCY : Nat := 100000

/-- `DPS_TIMER_PERIOD` (`source/dps.c:53`), C integer division. -/
def DPS_TIMER_PERIOD : Nat := DPS_TIMER_FREQUENCY / DPS_SCAN_RATE

/-- Statuses returned by the fallible calls made during `dps_init` and
`dps_timer_init`, one field per call site.
(`cyhal_timer_register_callback` and `cyhal_timer_enable_event` return no
status.) -/
structure DpsEnv where
  i2c_init_r : Nat
  get_config_p_r : Nat
  set_config_p_r : Nat
  get_config_t_r : Nat
  set_config_t_r : Nat
  timer_init_r : Nat
  timer_configure_r : Nat
  timer_set_frequency_r : Nat
  timer_start_r : Nat
deriving DecidableEq, Repr

/-- `dps_timer_init` (`source/dps.c:131`): timer init, configure,
set-frequency, start — returning at the first non-success status,
`CY_RSLT_SUCCESS` otherwise. -/
def dps_timer_init (env : DpsEnv) : Nat :=
  let rslt := env.timer_init_r
  if rslt ≠ CY_RSLT_SUCCESS then rslt
  else
    let rslt := env.timer_configure_r
    if rslt ≠ CY_RSLT_SUCCESS then rslt
    else
      let rslt := env.timer_set_frequency_r
      if rslt ≠ CY_RSLT_SUCCESS then rslt
      else
        let rslt := env.timer_start_r
        if rslt ≠ CY_RSLT_SUCCESS then rslt
        else CY_RSLT_SUCCESS

/-- How a call to `dps_init` ends: `halted` models reaching `CY_ASSERT(0)`
(the debug-build trap, which never returns), `returned r` a normal return
with status `r`. -/
inductive DpsInitOutcome where
  | halted
  | returned (r : Nat)
deriving DecidableEq, Repr

/-- `dps_init` (`source/dps.c:90`): I2C init — `CY_ASSERT(0)` on failure —
then two get-config/set-config rounds whose statuses are each assigned to
`result` and immediately over-written, never tested; clear `dps_flag`;
then `dps_timer_init`, whose status alone is tested and propagated.
Returns the outcome and the `dps_flag` value on exit. -/
def dps_init (env : DpsEnv) (dps_flag : Bool) : DpsInitOutcome × Bool :=
  let result := env.i2c_init_r
  if result ≠ CY_RSLT_SUCCESS then (DpsInitOutcome.halted, dps_flag)
  else
    let result := env.get_config_p_r
    let result := env.set_config_p_r
    let result := env.get_config_t_r
    let result := env.set_config_t_r
    let dps_flag := false
    let result := dps_timer_init env
    if result ≠ CY_RSLT_SUCCESS then (DpsInitOutcome.returned result, dps_flag)
    else (DpsInitOutcome.returned CY_RSLT_SUCCESS, dps_flag)

/-- Data produced by `xensiv_dps3xx_read`: its status and, on success, the
pressure and temperature values (float payloads carried as opaque
`Int`-coded values; the code never computes on them). -/
structure DpsReadEnv where
  read_result : Nat
  pressure : Int
  temperature : Int
deriving DecidableEq, Repr

/-- `dps_get_data` (`source/dps.c:216`): read the sensor; only on success
store pressure into `dps_data[0]` and temperature into `dps_data[1]`;
return the read status either way. -/
def dps_get_data (env : DpsReadEnv) (dps_data : List Int) : Nat × List Int :=
  let result := env.read_result
  if result = CY_RSLT_SUCCESS then
    (result, (dps_data.set 0 env.pressure).set 1 env.temperature)
  else (result, dps_data)

/-! ## The radar channel (`source/radar.c`) -/

/-- `RADAR_SCAN_RATE` (`source/radar.c:63`). -/
def RADAR_SCAN_RATE : Nat := 16

/-- `RADAR_TIMER_FREQUENCY` (`source/radar.c:64`). -/
def RADAR_TIMER_FREQUENCY : Nat := 100000

/-- `RADAR_TIMER_PERIOD` (`source/radar.c:65`), C integer division. -/
def RADAR_TIMER_PERIOD : Nat := RADAR_TIMER_FREQUENCY / RADAR_SCAN_RATE

/-- Modelled from the spec: `RADAR_AXIS`, the bound of the copy loop in
`radar_get_data`, is defined in `config.h`, which is not among the sources;
the spec fixes the radar frame layout to `NUM_SAMPLES_PER_FRAME × 2-byte
unsigned` and has the whole captured frame delivered, so the copy bound
equals `NUM_SAMPLES_PER_FRAME` (itself a product of configuration constants
from the absent `radar_settings.h`, kept parametric here as `n`). -/
def RADAR_AXIS (n : Nat) : Nat := n

/-- The C assignment `int16_t = uint16_t`: the 16-bit pattern is kept,
reinterpreted two's-complement. -/
def int16OfUint16 (v : Nat) : Int :=
  if v < 32768 then (v : Int) else (v : Int) - 65536

/-- Data produced by `xensiv_bgt60trxx_get_fifo_data`: its status and, on
success, the `NUM_SAMPLES_PER_FRAME` samples it deposited in
`bgt60_buffer` (each a `uint16_t`, carried as a `Nat`). -/
structure RadarEnv where
  fifo_result : Nat
  fifo_data : List Nat
deriving DecidableEq, Repr

/-- `radar_get_data` (`source/radar.c:227`): everything is compiled under
`IM_ENABLE_RADAR` (`radarEnabled`); read `NUM_SAMPLES_PER_FRAME` samples
from the FIFO into `bgt60_buffer`, and only on success copy
`bgt60_buffer[i]` into `radar_data[i]` for `i < RADAR_AXIS`. On a failed
read — or with radar disabled — the caller's buffer is untouched. -/
def radar_get_data (radarEnabled : Bool) (env : RadarEnv) (axis : Nat)
    (radar_data : List Int) : List Int :=
  if radarEnabled then
    if env.fifo_result = CY_RSLT_SUCCESS then
      copyLoop int16OfUint16 0 axis env.fifo_data radar_data
    else radar_data
  else radar_data

/-! ## Properties of the copy loop -/

theorem copyLoop_succ (f : α → β) (d0 : α) (n : Nat) (src : List α) (dst : List β) :
    copyLoop f d0 (n + 1) src dst =
      (copyLoop f d0 n src dst).set n (f (src.getD n d0)) := by
  simp [copyLoop, List.range_succ]

theorem copyLoop_length (f : α → β) (d0 : α) (n : Nat) (src : List α) (dst : List β) :
    (copyLoop f d0 n src dst).length = dst.length := by
  induction n with
  | zero => rfl
  | succ n ih => rw [copyLoop_succ, List.length_set, ih]

theorem copyLoop_getD (f : α → β) (d0 : α) (b : β) {n : Nat} (src : List α)
    (dst : List β) {i : Nat} (hi : i < n) (hd : i < dst.length) :
    (copyLoop f d0 n src dst).getD i b = f (src.getD i d0) := by
  induction n with
  | zero => omega
  | succ n ih =>
      rw [copyLoop_succ]
      rcases Nat.lt_or_ge i n with hlt | hge
      · rw [List.getD_eq_getElem?_getD, List.getElem?_set_ne (by omega),
          ← List.getD_eq_getElem?_getD, ih hlt]
      · have hin : i = n := by omega
        subst hin
        have hlen : i < (copyLoop f d0 i src dst).length := by
          rw [copyLoop_length]; exact hd
        rw [List.getD_eq_getElem?_getD, List.getElem?_set_self' ]
        simp [List.getElem?_eq_getElem hlen]

/-! ## The ping-pong pointer invariant -/

/-- The two buffer references point one at `audio_buffer0` and the other at
`audio_buffer1`. -/
def bufPairInv (s : AudioState) : Prop :=
  (s.active_rx_buffer = AudioBuf.buffer0 ∧ s.full_rx_buffer = AudioBuf.buffer1) ∨
  (s.active_rx_buffer = AudioBuf.buffer1 ∧ s.full_rx_buffer = AudioBuf.buffer0)

theorem audioStep_preserves_pair {fs : Nat} {a b : AudioState}
    (h : AudioStep fs a b) (ha : bufPairInv a) : bufPairInv b := by
  cases h with
  | isr =>
      by_cases hf : a.pdm_pcm_flag = false
      · rcases ha with ⟨h1, h2⟩ | ⟨h1, h2⟩ <;>
          simp [bufPairInv, pdm_pcm_event_handler, hf, h1, h2]
      · rcases ha with ⟨h1, h2⟩ | ⟨h1, h2⟩ <;>
          simp [bufPairInv, pdm_pcm_event_handler, hf, h1, h2]
  | dma_fill data hlen =>
      rcases ha with ⟨h1, h2⟩ | ⟨h1, h2⟩ <;>
        simp [bufPairInv, writeActive, h1, h2]
  | service hflag =>
      rcases ha with ⟨h1, h2⟩ | ⟨h1, h2⟩ <;> simp [bufPairInv, h1, h2]

theorem pdm_init_success_state {fs : Nat} {env : PdmEnv} {s : AudioState}
    (h : (pdm_init fs env s).result = CY_RSLT_SUCCESS) :
    (pdm_init fs env s).state =
      { s with active_rx_buffer := AudioBuf.buffer0
               full_rx_buffer := AudioBuf.buffer1
               pdm_pcm_flag := false } := by
  simp only [pdm_init] at h ⊢
  split_ifs at h ⊢ with h1 h2 h3
  · exact absurd h h1
  · exact absurd h h2
  · exact absurd h h3
  · rfl

/-! ## Claim C1: behaviour of one audio ISR invocation -/

/-- **C1**: for every audio-channel state, one invocation of
`pdm_pcm_event_handler`: if `pdm_pcm_flag` is false at entry, the flag is
true afterwards and the `active_rx_buffer`/`full_rx_buffer` references are
exchanged; if the flag is true at entry, both references and the
un-consumed full frame are unchanged; in both cases the last action of the
ISR is starting an asynchronous read of `FRAME_SIZE` samples into the
(possibly new) active buffer. -/
theorem C1_pdm_isr (fs : Nat) (s : AudioState) :
    (s.pdm_pcm_flag = false →
      ((pdm_pcm_event_handler fs s).1.pdm_pcm_flag = true ∧
       (pdm_pcm_event_handler fs s).1.active_rx_buffer = s.full_rx_buffer ∧
       (pdm_pcm_event_handler fs s).1.full_rx_buffer = s.active_rx_buffer)) ∧
    (s.pdm_pcm_flag = true →
      ((pdm_pcm_event_handler fs s).1.active_rx_buffer = s.active_rx_buffer ∧
       (pdm_pcm_event_handler fs s).1.full_rx_buffer = s.full_rx_buffer ∧
       fullContents (pdm_pcm_event_handler fs s).1 = fullContents s)) ∧
    (pdm_pcm_event_handler fs s).2.getLast? =
      some (AudioAction.readAsync (pdm_pcm_event_handler fs s).1.active_rx_buffer fs) := by
  cases hf : s.pdm_pcm_flag <;> simp [pdm_pcm_event_handler, hf]

/-- A concrete audio state with the ready flag clear. -/
def sReadyClear : AudioState :=
  ⟨[1, 2], [3, 4], AudioBuf.buffer0, AudioBuf.buffer1, false⟩

theorem C1_pdm_isr_witness :
    ((pdm_pcm_event_handler 2 sReadyClear).1.pdm_pcm_flag = true ∧
     (pdm_pcm_event_handler 2 sReadyClear).1.active_rx_buffer = sReadyClear.full_rx_buffer ∧
     (pdm_pcm_event_handler 2 sReadyClear).1.full_rx_buffer = sReadyClear.active_rx_buffer) ∧
    (pdm_pcm_event_handler 2 sReadyClear).2.getLast? =
      some (AudioAction.readAsync (pdm_pcm_event_handler 2 sReadyClear).1.active_rx_buffer 2) :=
  ⟨(C1_pdm_isr 2 sReadyClear).1 rfl, (C1_pdm_isr 2 sReadyClear).2.2⟩

/-! ## Claim C2: the ping-pong invariant holds in every reachable state -/

/-- **C2**: after a successful `pdm_init`, `active_rx_buffer` points at
`audio_buffer0` and `full_rx_buffer` at `audio_buffer1`; and in every state
reachable from there through ISR invocations, DMA completions, and
foreground services, the two references are distinct and together make up
exactly `{audio_buffer0, audio_buffer1}`. -/
theorem C2_pingpong_invariant (fs : Nat) (env : PdmEnv) (s0 : AudioState)
    (hsucc : (pdm_init fs env s0).result = CY_RSLT_SUCCESS) :
    (pdm_init fs env s0).state.active_rx_buffer = AudioBuf.buffer0 ∧
    (pdm_init fs env s0).state.full_rx_buffer = AudioBuf.buffer1 ∧
    ∀ s, AudioReachable fs (pdm_init fs env s0).state s →
      s.active_rx_buffer ≠ s.full_rx_buffer ∧
      ({s.active_rx_buffer, s.full_rx_buffer} : Set AudioBuf) =
        {AudioBuf.buffer0, AudioBuf.buffer1} := by
  have hstate := pdm_init_success_state hsucc
  refine ⟨by rw [hstate], by rw [hstate], ?_⟩
  intro s hs
  have hinv : bufPairInv s := by
    induction hs with
    | refl => rw [hstate]; exact Or.inl ⟨rfl, rfl⟩
    | tail hab hbc ih => exact audioStep_preserves_pair hbc ih
  rcases hinv with ⟨h1, h2⟩ | ⟨h1, h2⟩
  · rw [h1, h2]; exact ⟨by simp, rfl⟩
  · rw [h1, h2]; exact ⟨by simp, Set.pair_comm _ _⟩

/-- An all-successful PDM initialisation environment. -/
def pdmEnvOk : PdmEnv := ⟨0, 0, 0, 0, 0, 0, 0, 0⟩

/-- A pre-initialisation audio state (contents and references arbitrary). -/
def sPreInit : AudioState :=
  ⟨[0, 0], [0, 0], AudioBuf.buffer1, AudioBuf.buffer1, true⟩

theorem C2_pingpong_invariant_witness :
    (pdm_init 2 pdmEnvOk sPreInit).state.active_rx_buffer = AudioBuf.buffer0 ∧
    (pdm_init 2 pdmEnvOk sPreInit).state.full_rx_buffer = AudioBuf.buffer1 ∧
    ((pdm_init 2 pdmEnvOk sPreInit).state.active_rx_buffer ≠
        (pdm_init 2 pdmEnvOk sPreInit).state.full_rx_buffer ∧
      ({(pdm_init 2 pdmEnvOk sPreInit).state.active_rx_buffer,
        (pdm_init 2 pdmEnvOk sPreInit).state.full_rx_buffer} : Set AudioBuf) =
        {AudioBuf.buffer0, AudioBuf.buffer1}) := by
  have h := C2_pingpong_invariant 2 pdmEnvOk sPreInit (by decide)
  exact ⟨h.1, h.2.1, h.2.2 _ Relation.ReflTransGen.refl⟩

/-! ## Claim C10: a failed `pdm_init` leaves the channel untouched -/

/-- **C10**: whenever `pdm_init` returns a non-success status, the buffer
references and the ready flag keep the values they had before the call and
no asynchronous read has been armed. -/
theorem C10_pdm_init_failure_no_effect (fs : Nat) (env : PdmEnv) (s : AudioState)
    (h : (pdm_init fs env s).result ≠ CY_RSLT_SUCCESS) :
    (pdm_init fs env s).state.active_rx_buffer = s.active_rx_buffer ∧
    (pdm_init fs env s).state.full_rx_buffer = s.full_rx_buffer ∧
    (pdm_init fs env s).state.pdm_pcm_flag = s.pdm_pcm_flag ∧
    (pdm_init fs env s).actions = [] := by
  simp only [pdm_init] at h ⊢
  split_ifs at h ⊢ <;> simp_all

/-- A PDM environment whose PLL reservation fails with status 5. -/
def pdmEnvPllFail : PdmEnv := ⟨5, 0, 0, 0, 0, 0, 0, 0⟩

theorem C10_pdm_init_failure_no_effect_witness :
    (pdm_init 2 pdmEnvPllFail sReadyClear).state.active_rx_buffer =
        sReadyClear.active_rx_buffer ∧
    (pdm_init 2 pdmEnvPllFail sReadyClear).state.full_rx_buffer =
        sReadyClear.full_rx_buffer ∧
    (pdm_init 2 pdmEnvPllFail sReadyClear).state.pdm_pcm_flag =
        sReadyClear.pdm_pcm_flag ∧
    (pdm_init 2 pdmEnvPllFail sReadyClear).actions = [] :=
  C10_pdm_init_failure_no_effect 2 pdmEnvPllFail sReadyClear (by decide)

/-! ## Claim C3: order of the foreground's audio service -/

/-- Ready flags with only the audio channel pending. -/
def flagsAudioOnly : MainFlags := ⟨false, true⟩

/-- **C3 fails on the code**: in the audio branch of `main`'s loop the
flag-clearing store comes *first*, before the copy out of the full buffer,
and the last action for the channel is the `protocol_send` — not the flag
clear. At the concrete input (IMU disabled, `pdm_pcm_flag` set): the clear
precedes the copy, the copy never precedes the clear, and the last action
of the pass is the send. -/
theorem C3_counterexample :
    precedesB (MainAction.clearFlag Channel.audio) (MainAction.getData Channel.audio)
        (main_loop_body false flagsAudioOnly).2 = true ∧
    precedesB (MainAction.getData Channel.audio) (MainAction.clearFlag Channel.audio)
        (main_loop_body false flagsAudioOnly).2 = false ∧
    (main_loop_body false flagsAudioOnly).2.getLast? =
      some (MainAction.protocolSend Channel.audio) := by decide

/-- **C3 amended**: when the foreground services the audio channel it first
clears `pdm_pcm_flag`, then copies the frame out of the full buffer into
the caller's output buffer (`pdm_preprocessing_feed` copies
`full_rx_buffer[i]` into the output for every `i < FRAME_SIZE`), and then
sends it; the send — not the flag clear — is the last action of the pass,
and the flag is clear when the pass ends. -/
theorem C3_amended_clear_first (imuE : Bool) (flags : MainFlags)
    (hp : flags.pdm_pcm_flag = true) (fs : Nat) (s : AudioState) (out : List Int)
    (hout : out.length = fs) :
    precedesB (MainAction.clearFlag Channel.audio) (MainAction.getData Channel.audio)
        (main_loop_body imuE flags).2 = true ∧
    precedesB (MainAction.getData Channel.audio) (MainAction.protocolSend Channel.audio)
        (main_loop_body imuE flags).2 = true ∧
    (main_loop_body imuE flags).2.getLast? =
      some (MainAction.protocolSend Channel.audio) ∧
    (main_loop_body imuE flags).1.pdm_pcm_flag = false ∧
    ∀ i, i < fs →
      (pdm_preprocessing_feed fs s out).getD i 0 = (fullContents s).getD i 0 := by
  obtain ⟨iu, pf⟩ := flags
  cases pf
  · exact absurd hp (by simp)
  · refine ?_
    have hcopy : ∀ i, i < fs →
        (pdm_preprocessing_feed fs s out).getD i 0 = (fullContents s).getD i 0 := by
      intro i hi
      have := copyLoop_getD (α := Int) (β := Int) id 0 (0 : Int)
        (fullContents s) out hi (hout ▸ hi)
      simpa [pdm_preprocessing_feed] using this
    cases imuE <;> cases iu <;>
      exact ⟨by decide, by decide, by decide, by decide, hcopy⟩

theorem C3_amended_clear_first_witness :
    (precedesB (MainAction.clearFlag Channel.audio) (MainAction.getData Channel.audio)
        (main_loop_body false flagsAudioOnly).2 = true ∧
     precedesB (MainAction.getData Channel.audio) (MainAction.protocolSend Channel.audio)
        (main_loop_body false flagsAudioOnly).2 = true ∧
     (main_loop_body false flagsAudioOnly).2.getLast? =
        some (MainAction.protocolSend Channel.audio) ∧
     (main_loop_body false flagsAudioOnly).1.pdm_pcm_flag = false ∧
     ∀ i, i < 2 →
       (pdm_preprocessing_feed 2 sReadyClear [9, 9]).getD i 0 =
         (fullContents sReadyClear).getD i 0) :=
  C3_amended_clear_first false flagsAudioOnly rfl 2 sReadyClear [9, 9] rfl

/-! ## Claim C4: reset on any sensor-initialisation failure -/

/-- **C4 divergence witness**: `main` stores `pdm_init`'s status into
`result` and then — when the IMU is enabled — over-writes it with
`imu_init`'s status, so with `pdm_init` failing (status 1) and `imu_init`
succeeding, `main_boot` does *not* reset (first conjunct), although the
same pdm failure with the IMU disabled does reset (second conjunct); the
loop is entered and a frame is handed to the sink on the next set flag
(third conjunct). -/
theorem C4_overwritten_status_skips_reset :
    main_boot true ⟨1, CY_RSLT_SUCCESS⟩ = false ∧
    main_boot false ⟨1, CY_RSLT_SUCCESS⟩ = true ∧
    MainAction.protocolSend Channel.audio ∈ (main_loop_body true ⟨false, true⟩).2 := by
  decide

/-! ## Claim C5: shape of one foreground loop pass -/

/-- **C5**: each pass of `main`'s loop calls `protocol_repl` exactly once
and first; services the channels in declaration order (IMU before audio:
when both are serviced, the IMU send precedes the audio flag clear); for
each set flag it clears the flag, then obtains the frame, then sends it
tagged with that channel; and no channel is sent more than once in a
pass — a channel whose flag is clear (or disabled) is not sent at all. -/
theorem C5_loop_pass_shape (imuE : Bool) (flags : MainFlags) :
    (main_loop_body imuE flags).2.head? = some MainAction.protocolRepl ∧
    (main_loop_body imuE flags).2.count MainAction.protocolRepl = 1 ∧
    (main_loop_body imuE flags).2.count (MainAction.protocolSend Channel.imu) ≤ 1 ∧
    (main_loop_body imuE flags).2.count (MainAction.protocolSend Channel.audio) ≤ 1 ∧
    (imuE = true → flags.imu_flag = true →
      (precedesB (MainAction.clearFlag Channel.imu) (MainAction.getData Channel.imu)
          (main_loop_body imuE flags).2 = true ∧
       precedesB (MainAction.getData Channel.imu) (MainAction.protocolSend Channel.imu)
          (main_loop_body imuE flags).2 = true)) ∧
    (¬(imuE = true ∧ flags.imu_flag = true) →
      (main_loop_body imuE flags).2.count (MainAction.protocolSend Channel.imu) = 0) ∧
    (flags.pdm_pcm_flag = true →
      (precedesB (MainAction.clearFlag Channel.audio) (MainAction.getData Channel.audio)
          (main_loop_body imuE flags).2 = true ∧
       precedesB (MainAction.getData Channel.audio) (MainAction.protocolSend Channel.audio)
          (main_loop_body imuE flags).2 = true)) ∧
    (flags.pdm_pcm_flag = false →
      (main_loop_body imuE flags).2.count (MainAction.protocolSend Channel.audio) = 0) ∧
    (imuE = true → flags.imu_flag = true → flags.pdm_pcm_flag = true →
      precedesB (MainAction.protocolSend Channel.imu) (MainAction.clearFlag Channel.audio)
          (main_loop_body imuE flags).2 = true) := by
  obtain ⟨iu, pf⟩ := flags
  cases imuE <;> cases iu <;> cases pf <;> decide

theorem C5_loop_pass_shape_witness :
    (main_loop_body true ⟨true, true⟩).2.head? = some MainAction.protocolRepl ∧
    precedesB (MainAction.protocolSend Channel.imu) (MainAction.clearFlag Channel.audio)
        (main_loop_body true ⟨true, true⟩).2 = true := by
  have h := C5_loop_pass_shape true ⟨true, true⟩
  exact ⟨h.1, h.2.2.2.2.2.2.2.2 rfl rfl rfl⟩

/-! ## Claim C6: failed polled reads leave the caller's buffer untouched -/

/-- **C6**: when the underlying driver call fails, `dps_get_data` writes
neither pressure nor temperature and returns the failing status, and
`radar_get_data` copies nothing — in both cases the caller's scratch
buffer keeps its previous contents (so stale bytes are what a subsequent
send would forward). -/
theorem C6_failed_read_leaves_buffer (env : DpsReadEnv) (buf : List Int)
    (hd : env.read_result ≠ CY_RSLT_SUCCESS)
    (renv : RadarEnv) (axis : Nat) (rbuf : List Int) (e : Bool)
    (hr : renv.fifo_result ≠ CY_RSLT_SUCCESS) :
    dps_get_data env buf = (env.read_result, buf) ∧
    radar_get_data e renv axis rbuf = rbuf := by
  constructor
  · simp [dps_get_data, hd]
  · cases e <;> simp [radar_get_data, hr]

theorem C6_failed_read_leaves_buffer_witness :
    dps_get_data ⟨3, 7, 9⟩ [1, 2] = (3, [1, 2]) ∧
    radar_get_data true ⟨4, [5]⟩ 1 [6] = [6] :=
  C6_failed_read_leaves_buffer ⟨3, 7, 9⟩ [1, 2] (by decide) ⟨4, [5]⟩ 1 [6] true
    (by decide)

/-! ## Claim C7: status propagation in `dps_init` -/

/-- A DPS environment in which the pressure set-config call fails (status 1)
while every other step succeeds. -/
def dpsEnvCfgFail : DpsEnv := ⟨0, 0, 1, 0, 0, 0, 0, 0, 0⟩

/-- **C7 fails on the code**: with the pressure set-config call failing and
every other step succeeding, `dps_init` still returns `CY_RSLT_SUCCESS` —
the get-config/set-config statuses are assigned to `result` and
immediately over-written, never tested. -/
theorem C7_counterexample :
    dps_init dpsEnvCfgFail true = (DpsInitOutcome.returned CY_RSLT_SUCCESS, false) := by
  decide

/-- **C7 amended**: `dps_init` propagates only the timer-setup statuses:
when the I2C initialisation succeeds it returns exactly `dps_timer_init`'s
status, which is non-success iff one of the four fallible timer steps
(init, configure, set-frequency, start) fails; the four
get-config/set-config statuses are never propagated, and an I2C-init
failure trips `CY_ASSERT(0)` instead of returning a status. -/
theorem C7_amended_only_timer_status (env : DpsEnv) (f : Bool) :
    (env.i2c_init_r = CY_RSLT_SUCCESS →
      (dps_init env f).1 = DpsInitOutcome.returned (dps_timer_init env)) ∧
    (dps_timer_init env = CY_RSLT_SUCCESS ↔
      (env.timer_init_r = CY_RSLT_SUCCESS ∧ env.timer_configure_r = CY_RSLT_SUCCESS ∧
       env.timer_set_frequency_r = CY_RSLT_SUCCESS ∧
       env.timer_start_r = CY_RSLT_SUCCESS)) ∧
    (env.i2c_init_r ≠ CY_RSLT_SUCCESS →
      (dps_init env f).1 = DpsInitOutcome.halted) := by
  refine ⟨?_, ?_, ?_⟩
  · intro hi2c
    simp only [dps_init, hi2c]
    split_ifs with h <;> simp_all
  · simp only [dps_timer_init]
    split_ifs <;> simp_all [CY_RSLT_SUCCESS]
  · intro hg
    simp only [dps_init]
    split_ifs <;> simp_all

/-- A DPS environment whose I2C initialisation fails (status 2) while every
other step succeeds. -/
def dpsEnvI2cFail : DpsEnv := ⟨2, 0, 0, 0, 0, 0, 0, 0, 0⟩

theorem C7_amended_only_timer_status_witness :
    (dps_init dpsEnvCfgFail true).1 =
        DpsInitOutcome.returned (dps_timer_init dpsEnvCfgFail) ∧
    (dps_timer_init dpsEnvCfgFail = CY_RSLT_SUCCESS ↔
      (dpsEnvCfgFail.timer_init_r = CY_RSLT_SUCCESS ∧
       dpsEnvCfgFail.timer_configure_r = CY_RSLT_SUCCESS ∧
       dpsEnvCfgFail.timer_set_frequency_r = CY_RSLT_SUCCESS ∧
       dpsEnvCfgFail.timer_start_r = CY_RSLT_SUCCESS)) ∧
    (dps_init dpsEnvI2cFail true).1 = DpsInitOutcome.halted := by
  have h1 := C7_amended_only_timer_status dpsEnvCfgFail true
  have h2 := C7_amended_only_timer_status dpsEnvI2cFail true
  exact ⟨h1.1 (by decide), h1.2.1, h2.2.2 (by decide)⟩

/-! ## Claim C8: a successful radar read yields the whole frame -/

/-- **C8**: on every successful FIFO read, `radar_get_data` copies all
`NUM_SAMPLES_PER_FRAME` (`n`) captured samples from `bgt60_buffer` into
the caller's output buffer (each `uint16_t` sample stored through the
`int16_t` assignment, 16-bit pattern preserved), leaving the buffer the
full frame long. -/
theorem C8_radar_full_frame (n : Nat) (env : RadarEnv) (out : List Int)
    (hres : env.fifo_result = CY_RSLT_SUCCESS)
    (hout : out.length = n) :
    (radar_get_data true env (RADAR_AXIS n) out).length = n ∧
    ∀ i, i < n →
      (radar_get_data true env (RADAR_AXIS n) out).getD i 0 =
        int16OfUint16 (env.fifo_data.getD i 0) := by
  simp only [radar_get_data, hres, RADAR_AXIS, if_pos rfl, if_true]
  constructor
  · rw [copyLoop_length, hout]
  · intro i hi
    exact copyLoop_getD int16OfUint16 0 0 env.fifo_data out hi (hout ▸ hi)

theorem C8_radar_full_frame_witness :
    (radar_get_data true ⟨0, [1, 40000]⟩ (RADAR_AXIS 2) [0, 0]).length = 2 ∧
    ∀ i, i < 2 →
      (radar_get_data true ⟨0, [1, 40000]⟩ (RADAR_AXIS 2) [0, 0]).getD i 0 =
        int16OfUint16 ((⟨0, [1, 40000]⟩ : RadarEnv).fifo_data.getD i 0) :=
  C8_radar_full_frame 2 ⟨0, [1, 40000]⟩ [0, 0] rfl rfl

/-! ## Claim C9: the polled-channel timer arithmetic -/

/-- **C9**: with the 100 kHz timer base, the pressure channel's
terminal-count period is `100000 / 50 = 2000` ticks (a 50 Hz interrupt)
and the radar channel's is `100000 / 16 = 6250` ticks (a 16 Hz interrupt),
both integer divisions being exact. -/
theorem C9_timer_periods :
    DPS_TIMER_PERIOD = 2000 ∧
    DPS_SCAN_RATE * DPS_TIMER_PERIOD = DPS_TIMER_FREQUENCY ∧
    RADAR_TIMER_PERIOD = 6250 ∧
    RADAR_SCAN_RATE * RADAR_TIMER_PERIOD = RADAR_TIMER_FREQUENCY := by decide
